import Mathlib

/-!
Verification of the simple-api-demo service (Rust, actix-web) against its
specification. The embedding covers:

* the JSON values and HTTP responses produced by the route handlers
  (src/handlers.rs),
* the routing tables of the two servers built by the server manager
  (src/server.rs),
* configuration loading from environment variables (src/config.rs),
* the application error taxonomy and its HTTP mapping (src/error.rs),
* the bind-and-start sequence of the server manager (src/server.rs),
  with the operating system bind outcome supplied as an oracle and the
  observable effects (bind attempts, server runs) recorded in a trace.

Environment access is modelled as a function from variable names to
optional string values; the request-time clock is a string parameter
(the RFC3339 rendering that chrono produces in the source).
-/

namespace SimpleApiDemo

/-- A JSON value, as built by the serde_json json! literals in the source.
Only the constructors the handlers use are needed: strings and objects
with ordered fields. -/
inductive Json where
  | str : String → Json
  | obj : List (String × Json) → Json

/-- Field lookup in a JSON value: the value of the first field with the
given key of an object, none for non-objects or missing keys. -/
def Json.getField (j : Json) (key : String) : Option Json :=
  match j with
  | .obj fields => (fields.find? (fun p => p.1 == key)).map (fun p => p.2)
  | .str _ => none

/-- An HTTP response body: plain text or a JSON document. -/
inductive Body where
  | text : String → Body
  | json : Json → Body

/-- An HTTP response as the handlers construct it: status code,
content-type header, body. -/
structure HttpResponse where
  status : Nat
  contentType : String
  body : Body

/-- Modelled from the spec: the build version string baked into the
binary (env!("CARGO_PKG_VERSION") in src/handlers.rs). The package
manifest Cargo.toml is not part of the sources at hand; the spec calls
the field a build version string, and the initial version a Cargo
package carries is 0.1.0. -/
def CARGO_PKG_VERSION : String := "0.1.0"

namespace main_server

/-- Embeds main_server::hello (src/handlers.rs): a 200 plain-text
response with body "Hello world!". The argument is the request-time
clock, which this handler ignores. -/
def hello (_now : String) : HttpResponse :=
  { status := 200
    contentType := "text/plain; charset=utf-8"
    body := Body.text "Hello world!" }

end main_server

namespace app_server

/-- Embeds app_server::root (src/handlers.rs): a 200 JSON response with
status, service and version fields. -/
def root (_now : String) : HttpResponse :=
  { status := 200
    contentType := "application/json"
    body := Body.json (Json.obj
      [("status", Json.str "ok"),
       ("service", Json.str "simple-api-demo"),
       ("version", Json.str CARGO_PKG_VERSION)]) }

/-- Embeds app_server::public_route (src/handlers.rs): a 200 JSON
response with message, access and timestamp fields. -/
def public_route (now : String) : HttpResponse :=
  { status := 200
    contentType := "application/json"
    body := Body.json (Json.obj
      [("message", Json.str "public route"),
       ("access", Json.str "public"),
       ("timestamp", Json.str now)]) }

/-- Embeds app_server::private_route (src/handlers.rs): a 200 JSON
response with message, access, timestamp and warning fields. -/
def private_route (now : String) : HttpResponse :=
  { status := 200
    contentType := "application/json"
    body := Body.json (Json.obj
      [("message", Json.str "private and protected route"),
       ("access", Json.str "private"),
       ("timestamp", Json.str now),
       ("warning", Json.str "This route should require authentication in production")]) }

end app_server

/-- A route handler: the request carries no data the handlers read, so a
handler is a function of the request-time clock alone. -/
abbrev Handler := String → HttpResponse

/-- The GET routing table of the main server, as registered in
ServerManager::create_main_server (src/server.rs). -/
def main_server_routes : List (String × Handler) :=
  [("/", main_server.hello),
   ("/health", main_server.hello)]

/-- The GET routing table of the application server, as registered in
ServerManager::create_app_server (src/server.rs). -/
def app_server_routes : List (String × Handler) :=
  [("/", app_server.root),
   ("/health", app_server.root),
   ("/public", app_server.public_route),
   ("/private", app_server.private_route)]

/-- Dispatch on a routing table: the handler of the first route whose
path matches. -/
def route_lookup (routes : List (String × Handler)) (path : String) :
    Option Handler :=
  (routes.find? (fun p => p.1 == path)).map (fun p => p.2)

/-- The application error taxonomy (enum AppError, src/error.rs): a
closed set of kinds, each carrying a message; Environment additionally
carries the variable name. -/
inductive AppError where
  | config (message : String)
  | server (message : String)
  | environment (var_name : String) (message : String)
  | internal (message : String)
  | validation (message : String)
deriving DecidableEq

/-- Embeds the Display implementation derived by thiserror from the
error attributes on each AppError variant (src/error.rs). -/
def AppError.display : AppError → String
  | .config message => "Configuration error: " ++ message
  | .server message => "Server error: " ++ message
  | .environment var_name message =>
      "Environment variable error: " ++ var_name ++ " - " ++ message
  | .internal message => "Internal server error: " ++ message
  | .validation message => "Validation error: " ++ message

/-- Embeds AppError::status_code (src/error.rs), with HTTP status codes
as their numeric values. -/
def AppError.status_code : AppError → Nat
  | .config _ => 500
  | .server _ => 500
  | .environment _ _ => 500
  | .internal _ => 500
  | .validation _ => 400

/-- Embeds AppError::error_type (src/error.rs): the fixed string
identifier of each kind. -/
def AppError.error_type : AppError → String
  | .config _ => "configuration_error"
  | .server _ => "server_error"
  | .environment _ _ => "environment_error"
  | .internal _ => "internal_error"
  | .validation _ => "validation_error"

/-- Embeds AppError::error_response (src/error.rs): a JSON response at
the status code of the error, whose body wraps type, message and
timestamp under an error key. The clock is the RFC3339 string chrono
produces at conversion time. -/
def AppError.error_response (e : AppError) (now : String) : HttpResponse :=
  { status := e.status_code
    contentType := "application/json"
    body := Body.json (Json.obj
      [("error", Json.obj
        [("type", Json.str e.error_type),
         ("message", Json.str e.display),
         ("timestamp", Json.str now)])]) }

/-- True of the ASCII decimal digit characters, as Rust integer parsing
classifies them (char::to_digit with radix 10). -/
def isAsciiDigit (c : Char) : Bool :=
  48 ≤ c.toNat && c.toNat ≤ 57

/-- The character of a decimal digit (0 to 9). -/
def digitChar (d : Nat) : Char := Char.ofNat (48 + d)

/-- The numeric value of a most-significant-first decimal digit string. -/
def decValue (cs : List Char) : Nat :=
  cs.foldl (fun a c => 10 * a + (c.toNat - 48)) 0

/-- The decimal digits of a natural number, least significant first.
The first argument is recursion fuel; any fuel above the number itself
is enough. -/
def natDigitsAux : Nat → Nat → List Char
  | 0, _ => []
  | fuel + 1, n =>
    if n < 10 then [digitChar n]
    else digitChar (n % 10) :: natDigitsAux fuel (n / 10)

/-- The decimal digits of a natural number, least significant first. -/
def natDecimalRev (n : Nat) : List Char :=
  natDigitsAux (n + 1) n

/-- Embeds the decimal rendering of an unsigned integer (the Display
implementation behind default.to_string() in src/config.rs). -/
def natToString (n : Nat) : String :=
  String.mk (natDecimalRev n).reverse

/-- Drops one leading plus sign, as Rust unsigned integer parsing
allows. -/
def stripPlus (cs : List Char) : List Char :=
  match cs with
  | c :: rest => if c = '+' then rest else cs
  | [] => cs

/-- Embeds str::parse::<u16> from the Rust standard library, as used by
Config::parse_port_env (src/config.rs): an optional plus sign followed
by one or more ASCII decimal digits whose value fits in 16 bits;
anything else is a parse error, modelled as none. -/
def parseU16 (s : String) : Option Nat :=
  let cs := stripPlus s.data
  if cs.isEmpty then none
  else if cs.all isAsciiDigit then
    if decValue cs ≤ 65535 then some (decValue cs) else none
  else none

/-- The process environment: a map from variable names to the string
values of the variables that are set. -/
abbrev Env := String → Option String

/-- The configuration structure (struct Config, src/config.rs). -/
structure Config where
  main_port : Nat
  app_port : Nat
  bind_address : String
deriving DecidableEq

/-- Embeds Config::parse_port_env (src/config.rs): read the variable,
fall back to the decimal rendering of the default when it is unset,
then parse as u16; a parse failure becomes an Environment error naming
the variable and quoting the offending string. -/
def Config.parse_port_env (env : Env) (env_var : String) (default : Nat) :
    Except AppError Nat :=
  let port_str := (env env_var).getD (natToString default)
  match parseU16 port_str with
  | some n => Except.ok n
  | none => Except.error (AppError.environment env_var
      ("must be a valid port number (1-65535), got: " ++ port_str))

/-- Embeds Config::from_env (src/config.rs): parse PORT (default 8080)
and PORT_APP (default 4242), read BIND_ADDRESS (default 0.0.0.0). -/
def Config.from_env (env : Env) : Except AppError Config := do
  let main_port ← Config.parse_port_env env "PORT" 8080
  let app_port ← Config.parse_port_env env "PORT_APP" 4242
  let bind_address := (env "BIND_ADDRESS").getD "0.0.0.0"
  pure { main_port := main_port, app_port := app_port, bind_address := bind_address }

/-- An observable effect of the server manager: attempting to bind a
listener to an address and port, or running a bound server. -/
inductive Event where
  | bindAttempt (addr : String) (port : Nat)
  | run (server : String)
deriving DecidableEq

/-- The operating system outcome of binding each address and port:
success, or an I/O error message (port in use, permission denied, ...).
Supplied as an oracle since it is decided outside the program. -/
abbrev BindOracle := String → Nat → Except String Unit

/-- A server that has been bound to its port and holds its routing
table, ready to run (actix dev::Server, as returned by the create
functions in src/server.rs). -/
structure BoundServer where
  name : String
  routes : List (String × Handler)

/-- One HttpServer bind call (src/server.rs): the attempt is recorded in
the trace, then the oracle decides the outcome. -/
def attemptBind (oracle : BindOracle) (addr : String) (port : Nat)
    (t : List Event) : Except String Unit × List Event :=
  (oracle addr port, t ++ [Event.bindAttempt addr port])

/-- Embeds ServerManager::create_main_server (src/server.rs): set up the
main routes and bind to (bind_address, main_port); the question mark
operator propagates a bind error. -/
def create_main_server (cfg : Config) (oracle : BindOracle)
    (t : List Event) : Except String BoundServer × List Event :=
  match attemptBind oracle cfg.bind_address cfg.main_port t with
  | (Except.ok _, t) => (Except.ok ⟨"main", main_server_routes⟩, t)
  | (Except.error e, t) => (Except.error e, t)

/-- Embeds ServerManager::create_app_server (src/server.rs): set up the
application routes and bind to (bind_address, app_port). -/
def create_app_server (cfg : Config) (oracle : BindOracle)
    (t : List Event) : Except String BoundServer × List Event :=
  match attemptBind oracle cfg.bind_address cfg.app_port t with
  | (Except.ok _, t) => (Except.ok ⟨"app", app_server_routes⟩, t)
  | (Except.error e, t) => (Except.error e, t)

/-- Running a bound server is recorded in the trace. -/
def run_server (s : BoundServer) (t : List Event) : List Event :=
  t ++ [Event.run s.name]

/-- Embeds ServerManager::start (src/server.rs): create and bind the
main server, then the application server, propagating the first bind
error with the question mark operator; when both binds succeed, run
both servers (try_join). The result pairs the outcome with the trace of
observable effects, starting from the empty trace. -/
def ServerManager.start (cfg : Config) (oracle : BindOracle) :
    Except String Unit × List Event :=
  match create_main_server cfg oracle [] with
  | (Except.error e, t) => (Except.error e, t)
  | (Except.ok m, t) =>
    match create_app_server cfg oracle t with
    | (Except.error e, t) => (Except.error e, t)
    | (Except.ok a, t) => (Except.ok (), run_server a (run_server m t))

/-- The projection of a body onto its JSON document, none for plain
text. -/
def Body.jsonValue : Body → Option Json
  | .json j => some j
  | .text _ => none

/-- The numeric value of a least-significant-first decimal digit
string. -/
def decValueRev (cs : List Char) : Nat :=
  cs.foldr (fun c a => 10 * a + (c.toNat - 48)) 0

theorem digitChar_toNat {d : Nat} (h : d < 10) : (digitChar d).toNat = 48 + d := by
  interval_cases d <;> decide

theorem isAsciiDigit_digitChar {d : Nat} (h : d < 10) :
    isAsciiDigit (digitChar d) = true := by
  interval_cases d <;> decide

theorem natDigitsAux_all_digits (fuel n : Nat) :
    (natDigitsAux fuel n).all isAsciiDigit = true := by
  induction fuel generalizing n with
  | zero => rfl
  | succ f ih =>
    rw [natDigitsAux]
    split
    · simp [isAsciiDigit_digitChar (by assumption)]
    · simp [ih, isAsciiDigit_digitChar (Nat.mod_lt n (by norm_num))]

theorem natDigitsAux_ne_nil (fuel n : Nat) (h : 0 < fuel) :
    natDigitsAux fuel n ≠ [] := by
  match fuel, h with
  | f + 1, _ =>
    rw [natDigitsAux]
    split <;> simp

theorem decValueRev_natDigitsAux (fuel n : Nat) (h : n < fuel) :
    decValueRev (natDigitsAux fuel n) = n := by
  induction fuel generalizing n with
  | zero => exact absurd h (Nat.not_lt_zero n)
  | succ f ih =>
    rw [natDigitsAux]
    split
    · simp [decValueRev, digitChar_toNat (by assumption)]
    · rename_i hn
      have h10 : 10 ≤ n := Nat.le_of_not_lt hn
      have hdiv : n / 10 < f := by
        have h1 : n / 10 < n := Nat.div_lt_self (by omega) (by norm_num)
        omega
      have hrec := ih (n / 10) hdiv
      simp only [decValueRev, List.foldr_cons] at *
      rw [hrec, digitChar_toNat (Nat.mod_lt n (by norm_num))]
      omega

theorem decValue_reverse (cs : List Char) :
    decValue cs.reverse = decValueRev cs := by
  simp [decValue, decValueRev, List.foldl_reverse]

theorem stripPlus_of_all_digits {cs : List Char}
    (h : cs.all isAsciiDigit = true) : stripPlus cs = cs := by
  match cs with
  | [] => rfl
  | c :: rest =>
    rw [stripPlus]
    have hc : isAsciiDigit c = true := by
      simp [List.all_cons] at h
      exact h.1
    have : c ≠ '+' := by
      intro hEq
      rw [hEq] at hc
      exact absurd hc (by decide)
    simp [this]

/-- Round trip: the decimal rendering of a value that fits in 16 bits
parses back to the value. -/
theorem parseU16_natToString {n : Nat} (h : n ≤ 65535) :
    parseU16 (natToString n) = some n := by
  have hdata : (natToString n).data = (natDecimalRev n).reverse := rfl
  have hall : ((natDecimalRev n).reverse).all isAsciiDigit = true := by
    simp [List.all_reverse]
    intro c hc
    have := natDigitsAux_all_digits (n + 1) n
    simp [List.all_eq_true] at this
    exact this c hc
  have hne : (natDecimalRev n).reverse ≠ [] := by
    simp [natDecimalRev]
    exact natDigitsAux_ne_nil (n + 1) n (Nat.succ_pos n)
  have hval : decValue ((natDecimalRev n).reverse) = n := by
    rw [decValue_reverse]
    exact decValueRev_natDigitsAux (n + 1) n (Nat.lt_succ_self n)
  rw [parseU16, hdata, stripPlus_of_all_digits hall]
  simp [List.isEmpty_iff, hne, hall, hval, h]

/-- C1: GET / and GET /health on the main server are routed to the same
handler, main_server::hello, and for every request its response has
status 200, content-type text/plain; charset=utf-8, and body exactly
"Hello world!". -/
theorem main_server_hello_routes_and_response :
    route_lookup main_server_routes "/" = some main_server.hello ∧
    route_lookup main_server_routes "/health" = some main_server.hello ∧
    ∀ now : String,
      (main_server.hello now).status = 200 ∧
      (main_server.hello now).contentType = "text/plain; charset=utf-8" ∧
      (main_server.hello now).body = Body.text "Hello world!" :=
  ⟨rfl, rfl, fun _ => ⟨rfl, rfl, rfl⟩⟩

/-- C2: for every request, the application server's /public response
JSON has access equal to "public" and no warning field, while the
/private response JSON has access equal to "private" and a non-empty
warning field. -/
theorem app_server_public_private_access :
    route_lookup app_server_routes "/public" = some app_server.public_route ∧
    route_lookup app_server_routes "/private" = some app_server.private_route ∧
    ∀ now : String,
      (∃ j, (app_server.public_route now).body.jsonValue = some j ∧
        j.getField "access" = some (Json.str "public") ∧
        j.getField "warning" = none) ∧
      (∃ j w, (app_server.private_route now).body.jsonValue = some j ∧
        j.getField "access" = some (Json.str "private") ∧
        j.getField "warning" = some (Json.str w) ∧
        w ≠ "") := by
  refine ⟨rfl, rfl, fun now => ⟨⟨_, rfl, rfl, rfl⟩, ⟨_, _, rfl, rfl, rfl, ?_⟩⟩⟩
  decide

/-- C3: the application server routes GET / and GET /health to the same
handler, app_server::root, whose response JSON has status "ok", service
"simple-api-demo", and a non-empty version string. -/
theorem app_server_root_routes_and_response :
    route_lookup app_server_routes "/" = some app_server.root ∧
    route_lookup app_server_routes "/health" = some app_server.root ∧
    route_lookup app_server_routes "/" = route_lookup app_server_routes "/health" ∧
    ∀ now : String,
      (app_server.root now).status = 200 ∧
      ∃ j, (app_server.root now).body.jsonValue = some j ∧
        j.getField "status" = some (Json.str "ok") ∧
        j.getField "service" = some (Json.str "simple-api-demo") ∧
        j.getField "version" = some (Json.str CARGO_PKG_VERSION) ∧
        CARGO_PKG_VERSION ≠ "" := by
  refine ⟨rfl, rfl, rfl, fun now => ⟨rfl, _, rfl, rfl, rfl, rfl, ?_⟩⟩
  decide

/-- C7: an application error maps to HTTP status 400 exactly when its
kind is Validation, and the kinds Config, Server, Environment and
Internal all map to 500. -/
theorem status_code_400_iff_validation :
    ∀ e : AppError,
      (e.status_code = 400 ↔ ∃ m, e = AppError.validation m) ∧
      (e.status_code = 500 ↔
        ∃ m, e = AppError.config m ∨ e = AppError.server m ∨
          e = AppError.internal m ∨ ∃ v, e = AppError.environment v m) := by
  intro e
  cases e <;> simp [AppError.status_code]

/-- C8: converting any application error to an HTTP response yields a
JSON body wrapping type, message and timestamp under an error key,
where message is the full display string and type is the fixed
identifier of the kind, drawn from the five known identifiers. -/
theorem error_response_shape :
    (∀ (e : AppError) (now : String),
      ∃ j, (e.error_response now).body.jsonValue = some (Json.obj [("error", j)]) ∧
        j.getField "type" = some (Json.str e.error_type) ∧
        j.getField "message" = some (Json.str e.display) ∧
        j.getField "timestamp" = some (Json.str now) ∧
        e.error_type ∈ ["configuration_error", "server_error",
          "environment_error", "internal_error", "validation_error"]) ∧
    (∀ m : String,
      (AppError.config m).error_type = "configuration_error" ∧
      (AppError.server m).error_type = "server_error" ∧
      (AppError.internal m).error_type = "internal_error" ∧
      (AppError.validation m).error_type = "validation_error" ∧
      ∀ v : String, (AppError.environment v m).error_type = "environment_error") := by
  constructor
  · intro e now
    refine ⟨_, rfl, rfl, rfl, rfl, ?_⟩
    cases e <;> simp [AppError.error_type]
  · exact fun m => ⟨rfl, rfl, rfl, rfl, fun v => rfl⟩

/-- C4: with none of PORT, PORT_APP, BIND_ADDRESS set, configuration
loading succeeds and yields exactly main_port 8080, app_port 4242,
bind_address 0.0.0.0. -/
theorem from_env_defaults (env : Env)
    (h1 : env "PORT" = none) (h2 : env "PORT_APP" = none)
    (h3 : env "BIND_ADDRESS" = none) :
    Config.from_env env = Except.ok ⟨8080, 4242, "0.0.0.0"⟩ := by
  simp [Config.from_env, Config.parse_port_env, h1, h2, h3,
    parseU16_natToString (show 8080 ≤ 65535 by norm_num),
    parseU16_natToString (show 4242 ≤ 65535 by norm_num),
    Bind.bind, Except.bind, Functor.map, Except.map, Pure.pure, Except.pure]

/-- Witness for C4 at the empty environment. -/
theorem from_env_defaults_witness :
    Config.from_env (fun _ => none) = Except.ok ⟨8080, 4242, "0.0.0.0"⟩ :=
  from_env_defaults (fun _ => none) rfl rfl rfl

/-- C5: when PORT is set to a string that does not parse as a 16-bit
unsigned integer, configuration loading fails with an Environment error
naming PORT whose message includes the offending string. -/
theorem from_env_invalid_port (env : Env) (s : String)
    (hs : parseU16 s = none) (hp : env "PORT" = some s) :
    ∃ m, Config.from_env env = Except.error (AppError.environment "PORT" m) ∧
      ∃ pre post, m = pre ++ s ++ post := by
  refine ⟨"must be a valid port number (1-65535), got: " ++ s, ?_,
    "must be a valid port number (1-65535), got: ", "", ?_⟩
  · simp [Config.from_env, Config.parse_port_env, hp, hs,
      Bind.bind, Except.bind]
  · simp

/-- Witness for C5 with PORT set to the non-numeric string abc. -/
theorem from_env_invalid_port_witness :
    ∃ m, Config.from_env (fun v => if v = "PORT" then some "abc" else none) =
        Except.error (AppError.environment "PORT" m) ∧
      ∃ pre post, m = pre ++ "abc" ++ post :=
  from_env_invalid_port (fun v => if v = "PORT" then some "abc" else none)
    "abc" (by decide) rfl

/-- C6: when PORT is set to a string that parses as a 16-bit unsigned
integer (zero included), configuration loading succeeds with main_port
equal to the parsed value; symmetrically for PORT_APP and app_port. -/
theorem from_env_valid_port (env : Env) (s : String) (n : Nat)
    (hs : parseU16 s = some n) :
    (env "PORT" = some s → env "PORT_APP" = none →
      ∃ c, Config.from_env env = Except.ok c ∧ c.main_port = n) ∧
    (env "PORT" = none → env "PORT_APP" = some s →
      ∃ c, Config.from_env env = Except.ok c ∧ c.app_port = n) := by
  constructor
  · intro hp hq
    refine ⟨⟨n, 4242, (env "BIND_ADDRESS").getD "0.0.0.0"⟩, ?_, rfl⟩
    simp [Config.from_env, Config.parse_port_env, hp, hq, hs,
      parseU16_natToString (show 4242 ≤ 65535 by norm_num),
      Bind.bind, Except.bind, Pure.pure, Except.pure]
  · intro hp hq
    refine ⟨⟨8080, n, (env "BIND_ADDRESS").getD "0.0.0.0"⟩, ?_, rfl⟩
    simp [Config.from_env, Config.parse_port_env, hp, hq, hs,
      parseU16_natToString (show 8080 ≤ 65535 by norm_num),
      Bind.bind, Except.bind, Pure.pure, Except.pure]

/-- Witness for C6 with PORT set to the string 0, which the parser
accepts. -/
theorem from_env_valid_port_witness :
    ∃ c, Config.from_env (fun v => if v = "PORT" then some "0" else none) =
      Except.ok c ∧ c.main_port = 0 :=
  (from_env_valid_port (fun v => if v = "PORT" then some "0" else none)
    "0" 0 (by decide)).1 rfl rfl

/-- C9: if binding the main server fails, the server manager propagates
that error, never attempts the application server bind, and runs
nothing; if the main bind succeeds but the application bind fails, that
error propagates after exactly the two bind attempts and nothing
runs. -/
theorem start_bind_failure_fast (cfg : Config) (oracle : BindOracle) (e : String) :
    (oracle cfg.bind_address cfg.main_port = Except.error e →
      ServerManager.start cfg oracle =
        (Except.error e, [Event.bindAttempt cfg.bind_address cfg.main_port])) ∧
    (oracle cfg.bind_address cfg.main_port = Except.ok () →
      oracle cfg.bind_address cfg.app_port = Except.error e →
      ServerManager.start cfg oracle =
        (Except.error e,
          [Event.bindAttempt cfg.bind_address cfg.main_port,
           Event.bindAttempt cfg.bind_address cfg.app_port])) := by
  constructor
  · intro h
    simp [ServerManager.start, create_main_server, create_app_server,
      attemptBind, run_server, h]
  · intro h1 h2
    simp [ServerManager.start, create_main_server, create_app_server,
      attemptBind, run_server, h1, h2]

/-- Witness for C9 with an oracle that refuses every bind. -/
theorem start_bind_failure_fast_witness :
    ServerManager.start ⟨8080, 4242, "0.0.0.0"⟩
        (fun _ _ => Except.error "address in use") =
      (Except.error "address in use", [Event.bindAttempt "0.0.0.0" 8080]) :=
  (start_bind_failure_fast ⟨8080, 4242, "0.0.0.0"⟩
    (fun _ _ => Except.error "address in use") "address in use").1 rfl

/-- C10: for any default fitting in 16 bits, parsing an absent port
variable succeeds with the default, because the decimal rendering of
the default parses back to it; hence absent PORT and PORT_APP can never
make configuration loading fail. -/
theorem parse_port_env_absent_default :
    (∀ (env : Env) (v : String) (d : Nat), d ≤ 65535 → env v = none →
      Config.parse_port_env env v d = Except.ok d) ∧
    (∀ env : Env, env "PORT" = none → env "PORT_APP" = none →
      ∃ c, Config.from_env env = Except.ok c) := by
  have hpart : ∀ (env : Env) (v : String) (d : Nat), d ≤ 65535 → env v = none →
      Config.parse_port_env env v d = Except.ok d := by
    intro env v d hd hv
    simp [Config.parse_port_env, hv, parseU16_natToString hd]
  refine ⟨hpart, fun env h1 h2 => ?_⟩
  refine ⟨⟨8080, 4242, (env "BIND_ADDRESS").getD "0.0.0.0"⟩, ?_⟩
  simp [Config.from_env, hpart env "PORT" 8080 (by norm_num) h1,
    hpart env "PORT_APP" 4242 (by norm_num) h2, Bind.bind, Except.bind,
    Pure.pure, Except.pure]

/-- Witness for C10 at an empty environment and the default 8080. -/
theorem parse_port_env_absent_default_witness :
    Config.parse_port_env (fun _ => none) "PORT" 8080 = Except.ok 8080 :=
  parse_port_env_absent_default.1 (fun _ => none) "PORT" 8080
    (by norm_num) rfl

end SimpleApiDemo
